import Mathlib

/-!
Verification of the Evangelist workflow-configuration frontend.

This file gives a shallow embedding of the workflow configuration model,
the step-test orchestrator and the configuration persistence gateway of
the Evangelist repository (Next.js frontend), and proves properties about
them.  Every definition is translated from the TypeScript source:

* `convertToLegacyFormat` / `convertFromLegacyFormat` from
  `components/invocation-config.tsx`;
* the default configuration, `updateStepInput`, `handleTestStep` and
  `testAllSteps` from `components/workflow-configuration.tsx`;
* `addMetric` from `components/ui/metrics-selector.tsx`;
* the response interceptor from `lib/api.ts` and the suite-config client
  methods (`updateSuiteConfig`, `createSuiteConfig`);
* `handleSaveWorkflow` and the 404 handling of the configuration load
  from `app/suites/[id]/edit/page.tsx`.

JavaScript truthiness (`x || y` with the empty string falsy, arrays always
truthy) is modelled explicitly by the `js*` helpers.
-/

namespace Evangelist

/-- JavaScript `a || b` on strings: the empty string is falsy. -/
def jsStrOr (a b : String) : String := if a = "" then b else a

/-- JavaScript `a || b` where `a` may be `undefined` (modelled as `none`). -/
def jsOptStrOr (a : Option String) (b : String) : String :=
  match a with
  | some s => jsStrOr s b
  | none => b

/-- JavaScript `a || b` where both operands may be `undefined`. -/
def jsOptOr (a b : Option String) : Option String :=
  match a with
  | some s => if s = "" then b else some s
  | none => b

/-- JavaScript `a || b` on an optional number (`0` is falsy). -/
def jsOptNatOr (a : Option Nat) (b : Nat) : Nat :=
  match a with
  | some n => if n = 0 then b else n
  | none => b

/-- Key/value/enabled triple from `lib/types.ts`. -/
structure KeyValuePair where
  key : String
  value : String
  enabled : Bool
deriving DecidableEq

/-- The `params` member of `InputTypeConfig` (`{ data: KeyValuePair[] }`). -/
structure ParamsConfig where
  data : List KeyValuePair
deriving DecidableEq

/-- The `body` member of `InputTypeConfig`: optional `json` and `form` lists. -/
structure BodyConfig where
  json : Option (List KeyValuePair) := none
  form : Option (List KeyValuePair) := none
deriving DecidableEq

/-- Structure `InputTypeConfig` from `lib/types.ts`: optional `params` and `body`. -/
structure InputTypeConfig where
  params : Option ParamsConfig := none
  body : Option BodyConfig := none
deriving DecidableEq

/-- Structure `InvocationInput` from `lib/types.ts`. -/
structure InvocationInput where
  url : String
  method : String
  headers : Option (List KeyValuePair) := none
  input_type : InputTypeConfig
deriving DecidableEq

/-- Type `RequestBodyType`: one of none, json, formData. -/
inductive RequestBodyType
  | bodyNone
  | json
  | formData
deriving DecidableEq

/-- The `body` member of `LegacyInvocationInput`: optional `json`/`formData` lists. -/
structure LegacyBody where
  json : Option (List KeyValuePair) := none
  formData : Option (List KeyValuePair) := none
deriving DecidableEq

/-- Structure `LegacyInvocationInput` from `lib/types.ts`: the flattened editing shape. -/
structure LegacyInvocationInput where
  url : String
  method : String
  params : List KeyValuePair
  bodyType : RequestBodyType
  body : LegacyBody
deriving DecidableEq

/-- Function `convertToLegacyFormat` from `components/invocation-config.tsx`:
projects the nested `input_type` shape to the flat legacy editing shape.
The local `body` variable starts as `{json: [], formData: []}` and the
taken branch overwrites one of the two lists; an array value is always
truthy in JavaScript, so a present-but-empty `json` list still selects
the `json` branch. -/
def convertToLegacyFormat (config : InvocationInput) : LegacyInvocationInput :=
  let params : List KeyValuePair := (config.input_type.params.map ParamsConfig.data).getD []
  match config.input_type.body with
  | some b =>
    match b.json with
    | some js =>
      { url := config.url, method := config.method, params := params,
        bodyType := RequestBodyType.json,
        body := { json := some js, formData := some [] } }
    | none =>
      match b.form with
      | some fs =>
        { url := config.url, method := config.method, params := params,
          bodyType := RequestBodyType.formData,
          body := { json := some [], formData := some fs } }
      | none =>
        { url := config.url, method := config.method, params := params,
          bodyType := RequestBodyType.bodyNone,
          body := { json := some [], formData := some [] } }
  | none =>
    { url := config.url, method := config.method, params := params,
      bodyType := RequestBodyType.bodyNone,
      body := { json := some [], formData := some [] } }

/-- Function `convertFromLegacyFormat` from `components/invocation-config.tsx`:
maps the legacy shape back to the nested `input_type` shape.  `params`
is included only when the list is nonempty
(`legacyConfig.params && legacyConfig.params.length > 0`); for
`bodyType` equal to none no `body` key is produced at all.  `headers` is
taken from the original config. -/
def convertFromLegacyFormat (legacyConfig : LegacyInvocationInput)
    (originalConfig : InvocationInput) : InvocationInput :=
  let params : Option ParamsConfig :=
    if legacyConfig.params.length > 0 then some { data := legacyConfig.params } else none
  let body : Option BodyConfig :=
    match legacyConfig.bodyType with
    | RequestBodyType.json => some { json := some (legacyConfig.body.json.getD []), form := none }
    | RequestBodyType.formData =>
        some { json := none, form := some (legacyConfig.body.formData.getD []) }
    | RequestBodyType.bodyNone => none
  { url := legacyConfig.url
    method := legacyConfig.method
    headers := originalConfig.headers
    input_type := { params := params, body := body } }

/-- C3 (amended): the projection and its inverse round-trip on every
`InvocationInput` whose body is absent or holds exactly one of the
`json`/`form` lists, provided `input_type.params` is absent or its `data`
list is nonempty. -/
theorem convert_roundtrip (config : InvocationInput)
    (hbody : config.input_type.body = none ∨
      (∃ js, config.input_type.body = some { json := some js, form := none }) ∨
      (∃ fs, config.input_type.body = some { json := none, form := some fs }))
    (hparams : config.input_type.params = none ∨
      ∃ ps, ps ≠ [] ∧ config.input_type.params = some { data := ps }) :
    convertFromLegacyFormat (convertToLegacyFormat config) config = config := by
  obtain ⟨url, method, headers, params, body⟩ := config
  simp only at hbody hparams
  rcases hparams with hp | ⟨ps, hne, hp⟩ <;> subst hp
  · rcases hbody with hb | ⟨js, hb⟩ | ⟨fs, hb⟩ <;> subst hb <;>
      simp [convertToLegacyFormat, convertFromLegacyFormat]
  · rcases hbody with hb | ⟨js, hb⟩ | ⟨fs, hb⟩ <;> subst hb <;>
      simp [convertToLegacyFormat, convertFromLegacyFormat, List.length_pos, hne]

/-- C3 witness: a concrete round-trip instance through `convert_roundtrip`. -/
theorem convert_roundtrip_witness :
    convertFromLegacyFormat
      (convertToLegacyFormat
        { url := "https://api.example.com/classify", method := "POST", headers := some [],
          input_type :=
            { params := some { data := [{ key := "q", value := "x", enabled := true }] },
              body := some { json := some [{ key := "text", value := "@[review_text]", enabled := true }],
                             form := none } } })
      { url := "https://api.example.com/classify", method := "POST", headers := some [],
        input_type :=
          { params := some { data := [{ key := "q", value := "x", enabled := true }] },
            body := some { json := some [{ key := "text", value := "@[review_text]", enabled := true }],
                           form := none } } } =
      { url := "https://api.example.com/classify", method := "POST", headers := some [],
        input_type :=
          { params := some { data := [{ key := "q", value := "x", enabled := true }] },
            body := some { json := some [{ key := "text", value := "@[review_text]", enabled := true }],
                           form := none } } } :=
  convert_roundtrip _ (Or.inr (Or.inl ⟨_, rfl⟩)) (Or.inr ⟨_, by decide, rfl⟩)

/-- C3 counterexample: with `input_type.params = { data: [] }` (and no
body), the round-trip drops the `params` key entirely, so the result is
not deep-equal to the original. -/
theorem convert_roundtrip_counterexample :
    convertFromLegacyFormat
      (convertToLegacyFormat
        { url := "", method := "", headers := none,
          input_type := { params := some { data := [] }, body := none } })
      { url := "", method := "", headers := none,
        input_type := { params := some { data := [] }, body := none } } ≠
      { url := "", method := "", headers := none,
        input_type := { params := some { data := [] }, body := none } } := by
  decide

/-- C10: when both `body.json` and `body.form` are populated, the
projection reports the json body type with the json entries, and mapping
back yields a body holding only the `json` key — the form entries are
silently discarded. -/
theorem convert_both_json_and_form (config : InvocationInput)
    (js fs : List KeyValuePair)
    (h : config.input_type.body = some { json := some js, form := some fs }) :
    (convertToLegacyFormat config).bodyType = RequestBodyType.json ∧
    (convertToLegacyFormat config).body.json = some js ∧
    (convertFromLegacyFormat (convertToLegacyFormat config) config).input_type.body =
      some { json := some js, form := none } := by
  obtain ⟨url, method, headers, params, body⟩ := config
  simp only at h
  subst h
  refine ⟨rfl, rfl, ?_⟩
  simp [convertToLegacyFormat, convertFromLegacyFormat]

/-- A concrete `InvocationInput` whose body holds both a `json` and a
`form` list, used to instantiate `convert_both_json_and_form`. -/
def bothBodiesConfig : InvocationInput :=
  { url := "u", method := "POST", headers := none,
    input_type :=
      { params := none,
        body := some { json := some [{ key := "a", value := "1", enabled := true }],
                       form := some [{ key := "b", value := "2", enabled := false }] } } }

/-- C10 witness: a concrete instance through `convert_both_json_and_form`. -/
theorem convert_both_json_and_form_witness :
    (convertToLegacyFormat bothBodiesConfig).bodyType = RequestBodyType.json ∧
    (convertToLegacyFormat bothBodiesConfig).body.json =
      some [{ key := "a", value := "1", enabled := true }] ∧
    (convertFromLegacyFormat (convertToLegacyFormat bothBodiesConfig) bothBodiesConfig).input_type.body
      = some { json := some [{ key := "a", value := "1", enabled := true }], form := none } :=
  convert_both_json_and_form bothBodiesConfig _ _ rfl

/-- The four pipeline stages of `workflow-configuration.tsx`, in pipeline
order. -/
inductive Step
  | preprocessing
  | invocation
  | postprocessing
  | evaluation
deriving DecidableEq

/-- The lowercase step name used in toast messages and as object key. -/
def stepSlug : Step → String
  | Step.preprocessing => "preprocessing"
  | Step.invocation => "invocation"
  | Step.postprocessing => "postprocessing"
  | Step.evaluation => "evaluation"

/-- Capitalized step name (`step.charAt(0).toUpperCase() + step.slice(1)`). -/
def stepLabel : Step → String
  | Step.preprocessing => "Preprocessing"
  | Step.invocation => "Invocation"
  | Step.postprocessing => "Postprocessing"
  | Step.evaluation => "Evaluation"

/-- A record with one slot per pipeline stage, modelling the
`Record<string, _>` maps keyed by step name in the component state. -/
structure StepMap (α : Type) where
  preprocessing : α
  invocation : α
  postprocessing : α
  evaluation : α
deriving DecidableEq

/-- Read the slot of a step. -/
def StepMap.get (m : StepMap α) : Step → α
  | Step.preprocessing => m.preprocessing
  | Step.invocation => m.invocation
  | Step.postprocessing => m.postprocessing
  | Step.evaluation => m.evaluation

/-- Replace the slot of one step, leaving the others unchanged (the
`{...prev, [step]: v}` update pattern). -/
def StepMap.set (m : StepMap α) : Step → α → StepMap α
  | Step.preprocessing, a => { m with preprocessing := a }
  | Step.invocation, a => { m with invocation := a }
  | Step.postprocessing, a => { m with postprocessing := a }
  | Step.evaluation, a => { m with evaluation := a }

/-- A `StepMap` whose four slots hold the same value, for initial states. -/
def StepMap.const (a : α) : StepMap α :=
  { preprocessing := a, invocation := a, postprocessing := a, evaluation := a }

/-- The transport-level error as observed by the response interceptor of
`lib/api.ts`: only the properties the interceptor reads. -/
structure AxiosError where
  responseDataDetail : Option String
  responseStatus : Option Nat
  message : Option String
deriving DecidableEq

/-- Structure `ApiError` from `lib/types.ts`, as built by the interceptor; `detail`
is optional because `error.response?.data?.detail || error.message` can
itself be undefined. -/
structure ApiError where
  detail : Option String
  status_code : Nat
deriving DecidableEq

/-- The response interceptor of `lib/api.ts`: every rejected error is
rewritten into an `ApiError` object
`{ detail: error.response?.data?.detail || error.message,
   status_code: error.response?.status || 500 }`. -/
def interceptError (error : AxiosError) : ApiError :=
  { detail := jsOptOr error.responseDataDetail error.message
    status_code := jsOptNatOr error.responseStatus 500 }

/-- The JavaScript error object as read by the catch block of
`handleTestStep`: only the two property chains the handler dereferences
(`error.response?.data?.detail` and `error.message`). -/
structure CaughtError where
  responseDataDetail : Option String
  message : Option String
deriving DecidableEq

/-- The `ApiError` rejected by the response interceptor, viewed
through the properties `handleTestStep` reads: the plain
`{detail, status_code}` object has neither a `response` nor a `message`
property, so both reads yield `undefined`. -/
def apiErrorAsCaught (_e : ApiError) : CaughtError :=
  { responseDataDetail := none, message := none }

/-- Expression `error.response?.data?.detail || error.message` with the
final fallback string Test failed, from `handleTestStep`. -/
def testErrorMessage (error : CaughtError) : String :=
  jsOptStrOr error.responseDataDetail (jsOptStrOr error.message "Test failed")

/-- Opaque JSON payload returned by the remote test endpoint. -/
structure TestResult where
  payload : String
deriving DecidableEq

/-- Outcome of the awaited `apiClient.testSuiteStep` call: the promise
either resolves with a result or rejects with the error object produced
by the interceptor. -/
inductive TestOutcome
  | success (result : TestResult)
  | failure (error : CaughtError)
deriving DecidableEq

/-- Kind of a `toast` notification. -/
inductive ToastKind
  | info
  | success
  | error
deriving DecidableEq

/-- A user-facing toast notification. -/
structure Toast where
  kind : ToastKind
  message : String
deriving DecidableEq

/-- The `currentTestResult` record of `workflow-configuration.tsx`. -/
structure CurrentTestResult where
  stepType : Step
  result : Option TestResult
  error : Option String
deriving DecidableEq

/-- The `activeTab` state: diagram or results. -/
inductive ActiveTab
  | diagram
  | results
deriving DecidableEq

/-- The component state of `workflow-configuration.tsx` touched by the
step-test orchestrator.  `testErrors` slots are `Option (Option String)`:
the outer layer records whether the key is present at all, the inner one
the `string | null` value.  `testedSteps` is the JS `Set` in insertion
order; `toasts` accumulates the emitted notifications. -/
structure TestState where
  testResults : StepMap (Option TestResult)
  testLoading : StepMap Bool
  testErrors : StepMap (Option (Option String))
  currentTestResult : Option CurrentTestResult
  testedSteps : List Step
  activeTab : ActiveTab
  toasts : List Toast
deriving DecidableEq

/-- The initial component state: empty maps, diagram tab, empty
tested-steps set. -/
def initialTestState : TestState :=
  { testResults := StepMap.const none
    testLoading := StepMap.const false
    testErrors := StepMap.const none
    currentTestResult := none
    testedSteps := []
    activeTab := ActiveTab.diagram
    toasts := [] }

/-- Computation `new Set([...prev, step])`: append the step unless already present. -/
def insertStep (l : List Step) (s : Step) : List Step :=
  if s ∈ l then l else l ++ [s]

/-- Function `handleTestStep` from `workflow-configuration.tsx`.  With no suite id
it toasts an error and returns at once; otherwise it sets the loading
flag, clears the error slot, awaits the remote call and handles either
outcome, finally clearing the loading flag.  The catch block swallows the
rejection, so the returned promise always fulfills; the second component
records whether the network call was issued. -/
def handleTestStep (suiteId : Option String) (step : Step)
    (outcome : TestOutcome) (s : TestState) : TestState × Bool :=
  match suiteId with
  | none =>
    ({ s with toasts := s.toasts ++ [⟨ToastKind.error, "No suite selected for testing"⟩] }, false)
  | some _ =>
    let s1 : TestState :=
      { s with testLoading := s.testLoading.set step true
               testErrors := s.testErrors.set step (some none) }
    match outcome with
    | TestOutcome.success result =>
      let s2 : TestState :=
        { s1 with
            testResults := s1.testResults.set step (some result)
            currentTestResult := some { stepType := step, result := some result, error := none }
            testedSteps := insertStep s1.testedSteps step
            activeTab := ActiveTab.results
            toasts := s1.toasts ++
              [⟨ToastKind.success, stepLabel step ++ " test completed successfully"⟩] }
      ({ s2 with testLoading := s2.testLoading.set step false }, true)
    | TestOutcome.failure error =>
      let errorMessage := testErrorMessage error
      let s2 : TestState :=
        { s1 with
            testErrors := s1.testErrors.set step (some (some errorMessage))
            currentTestResult := some { stepType := step, result := none, error := some errorMessage }
            activeTab := ActiveTab.results
            toasts := s1.toasts ++
              [⟨ToastKind.error, stepLabel step ++ " test failed: " ++ errorMessage⟩] }
      ({ s2 with testLoading := s2.testLoading.set step false }, true)

/-- The fixed step list iterated by `testAllSteps`, in source order. -/
def allSteps : List Step :=
  [Step.preprocessing, Step.invocation, Step.postprocessing, Step.evaluation]

/-- Result of a `testAllSteps` run: the final state, the stages whose
remote test call was actually issued, and whether the aggregate promise
fulfilled. -/
structure TestAllResult where
  state : TestState
  invoked : List Step
  fulfilled : Bool
deriving DecidableEq

/-- One iteration of the `for (const step of steps)` loop of
`testAllSteps`: toast, then await `handleTestStep`.  The surrounding
`try { ... } catch (error) { throw error }` never fires because
`handleTestStep` traps every rejection internally. -/
def testStepInLoop (suiteId : String) (outcomes : Step → TestOutcome)
    (acc : TestState × List Step) (step : Step) : TestState × List Step :=
  let st : TestState :=
    { acc.1 with toasts := acc.1.toasts ++ [⟨ToastKind.info, "Testing " ++ stepSlug step ++ " step..."⟩] }
  let r := handleTestStep (some suiteId) step (outcomes step) st
  (r.1, if r.2 then acc.2 ++ [step] else acc.2)

/-- Function `testAllSteps` from `workflow-configuration.tsx`: runs the four
stages strictly sequentially.  `outcomes` gives, for each stage, how its
remote call would settle.  `fulfilled := true` on every path: since
`handleTestStep` never rejects, no execution path of `testAllSteps`
rejects either, and the final success toast is always reached. -/
def testAllSteps (suiteId : Option String) (outcomes : Step → TestOutcome)
    (s : TestState) : TestAllResult :=
  match suiteId with
  | none =>
    { state := { s with toasts := s.toasts ++ [⟨ToastKind.error, "No suite selected for testing"⟩] }
      invoked := []
      fulfilled := true }
  | some sid =>
    let s0 : TestState :=
      { s with toasts := s.toasts ++ [⟨ToastKind.info, "Starting workflow test..."⟩] }
    let r := allSteps.foldl (testStepInLoop sid outcomes) (s0, [])
    { state :=
        { r.1 with toasts := r.1.toasts ++
            [⟨ToastKind.success, "All workflow tests completed successfully"⟩] }
      invoked := r.2
      fulfilled := true }

/-- A whole editing session: fold a sequence of completed single-step
test invocations (step plus how its remote call settled) over the
component state. -/
def runSession (suiteId : Option String) (events : List (Step × TestOutcome))
    (s : TestState) : TestState :=
  events.foldl (fun st e => (handleTestStep suiteId e.1 e.2 st).1) s

/-- The predecessor gate of each accordion section in
`workflow-configuration.tsx`: invocation is gated on preprocessing,
postprocessing on invocation, evaluation on postprocessing; the
preprocessing section has no gate. -/
def stepPred : Step → Option Step
  | Step.preprocessing => none
  | Step.invocation => some Step.preprocessing
  | Step.postprocessing => some Step.invocation
  | Step.evaluation => some Step.postprocessing

/-- Whether the configuration controls of a step are presented as
enabled: the section content is wrapped in a reduced, non-interactive
container (blur plus pointer-events none)
exactly when the predecessor is missing from `testedSteps`
(`!testedSteps.has(pred)`). -/
def controlsEnabled (s : TestState) (step : Step) : Bool :=
  match stepPred step with
  | none => true
  | some p => decide (p ∈ s.testedSteps)

/-- The outcome of the chronologically last test of a step in a session. -/
def lastOutcome (events : List (Step × TestOutcome)) (k : Step) : Option TestOutcome :=
  ((events.filter (fun e => e.1 = k)).getLast?).map Prod.snd

/-- Whether an optional outcome is a success. -/
def isSuccess : Option TestOutcome → Bool
  | some (TestOutcome.success _) => true
  | _ => false

/-- A remote rejection whose server payload carries
`detail: "Connection refused"`, as normalized by the interceptor. -/
def connectionRefusedApiError : ApiError :=
  interceptError
    { responseDataDetail := some "Connection refused"
      responseStatus := some 502
      message := some "Request failed with status code 502" }

/-- Outcome environment in which stage 2 (invocation) fails and every
other stage succeeds. -/
def invocationFailsOutcomes : Step → TestOutcome
  | Step.invocation => TestOutcome.failure (apiErrorAsCaught connectionRefusedApiError)
  | _ => TestOutcome.success { payload := "ok" }

/-- Membership in `insertStep l s` comes from `l` or is `s` itself. -/
theorem mem_insertStep {p s : Step} {l : List Step} (h : p ∈ insertStep l s) :
    p ∈ l ∨ p = s := by
  unfold insertStep at h
  by_cases hc : s ∈ l
  · rw [if_pos hc] at h
    exact Or.inl h
  · rw [if_neg hc] at h
    rcases List.mem_append.mp h with h1 | h1
    · exact Or.inl h1
    · exact Or.inr (List.mem_singleton.mp h1)

/-- Function `handleTestStep` grows `testedSteps` only by the tested step, and
only when the remote call succeeded. -/
theorem testedSteps_handleTestStep {suiteId : Option String} {step p : Step}
    {outcome : TestOutcome} {s : TestState}
    (h : p ∈ (handleTestStep suiteId step outcome s).1.testedSteps) :
    p ∈ s.testedSteps ∨ (p = step ∧ ∃ r, outcome = TestOutcome.success r) := by
  cases suiteId with
  | none => exact Or.inl h
  | some sid =>
    cases outcome with
    | success r =>
      rcases mem_insertStep (l := s.testedSteps) h with h1 | h1
      · exact Or.inl h1
      · exact Or.inr ⟨h1, r, rfl⟩
    | failure e => exact Or.inl h

/-- Across a whole session, a step is in `testedSteps` only if it was
there initially or one of its tests in the session succeeded. -/
theorem testedSteps_runSession {suiteId : Option String} {p : Step}
    {events : List (Step × TestOutcome)} {s : TestState}
    (h : p ∈ (runSession suiteId events s).testedSteps) :
    p ∈ s.testedSteps ∨ ∃ r, (p, TestOutcome.success r) ∈ events := by
  induction events generalizing s with
  | nil => exact Or.inl h
  | cons e rest ih =>
    rcases ih (s := (handleTestStep suiteId e.1 e.2 s).1) h with h1 | ⟨r, h1⟩
    · rcases testedSteps_handleTestStep h1 with h2 | ⟨h2, r, h3⟩
      · exact Or.inl h2
      · refine Or.inr ⟨r, List.mem_cons.mpr (Or.inl ?_)⟩
        rw [h2, ← h3]
    · exact Or.inr ⟨r, List.mem_cons_of_mem e h1⟩

/-- C2 (amended): starting from the initial state, the controls of step `k+1`
are presented as enabled only if some test of step `k` in the session
succeeded — the tested-steps set is monotone, so a later failed retest of
step `k` does not disable step `k+1` again. -/
theorem gating_requires_past_success (suiteId : Option String)
    (events : List (Step × TestOutcome)) (k k1 : Step)
    (hpred : stepPred k1 = some k)
    (henabled : controlsEnabled (runSession suiteId events initialTestState) k1 = true) :
    ∃ r, (k, TestOutcome.success r) ∈ events := by
  unfold controlsEnabled at henabled
  rw [hpred] at henabled
  have hmem : k ∈ (runSession suiteId events initialTestState).testedSteps :=
    of_decide_eq_true henabled
  rcases testedSteps_runSession hmem with h1 | h2
  · exact absurd h1 (List.not_mem_nil k)
  · exact h2

/-- C2 witness: a concrete session through `gating_requires_past_success`. -/
theorem gating_requires_past_success_witness :
    ∃ r, (Step.preprocessing, TestOutcome.success r) ∈
      [(Step.preprocessing, TestOutcome.success { payload := "ok" })] :=
  gating_requires_past_success (some "s1")
    [(Step.preprocessing, TestOutcome.success { payload := "ok" })]
    Step.preprocessing Step.invocation rfl (by decide)

/-- C2 counterexample: preprocessing succeeds and is then retested with a
failure; its most recent run is a failure, yet the invocation controls
are still presented as enabled, because `testedSteps` never shrinks. -/
theorem gating_counterexample :
    controlsEnabled
      (runSession (some "s1")
        [(Step.preprocessing, TestOutcome.success { payload := "ok" }),
         (Step.preprocessing, TestOutcome.failure (apiErrorAsCaught connectionRefusedApiError))]
        initialTestState)
      Step.invocation = true ∧
    isSuccess
      (lastOutcome
        [(Step.preprocessing, TestOutcome.success { payload := "ok" }),
         (Step.preprocessing, TestOutcome.failure (apiErrorAsCaught connectionRefusedApiError))]
        Step.preprocessing) = false := by
  decide

/-- C1 (code evaluated at the failing input): in a `testAllSteps` run
where stage 2 (invocation) fails, the stages after it are still invoked,
the aggregate operation fulfills, and the final toast reports overall
success — because `handleTestStep` swallows the rejection, the abort
logic in the loop of `testAllSteps` is unreachable. -/
theorem testAllSteps_continues_after_failure :
    invocationFailsOutcomes Step.invocation =
      TestOutcome.failure (apiErrorAsCaught connectionRefusedApiError) ∧
    (testAllSteps (some "s1") invocationFailsOutcomes initialTestState).invoked =
      [Step.preprocessing, Step.invocation, Step.postprocessing, Step.evaluation] ∧
    (testAllSteps (some "s1") invocationFailsOutcomes initialTestState).fulfilled = true ∧
    (testAllSteps (some "s1") invocationFailsOutcomes initialTestState).state.testErrors.get
      Step.invocation = some (some "Test failed") ∧
    (testAllSteps (some "s1") invocationFailsOutcomes initialTestState).state.toasts.getLast? =
      some ⟨ToastKind.success, "All workflow tests completed successfully"⟩ := by
  refine ⟨rfl, rfl, rfl, rfl, ?_⟩
  decide

/-- C6: with no resolved suite identifier, a single-step test and a
`testAllSteps` run return immediately with the "No suite selected for
testing" condition: no network call is issued, no stage is invoked, and
the loading flags, test results, error slots and tested-steps set are
all left unchanged. -/
theorem test_without_suite (step : Step) (outcome : TestOutcome)
    (outcomes : Step → TestOutcome) (s : TestState) :
    handleTestStep none step outcome s =
      ({ s with toasts := s.toasts ++ [⟨ToastKind.error, "No suite selected for testing"⟩] },
        false) ∧
    testAllSteps none outcomes s =
      { state :=
          { s with toasts := s.toasts ++ [⟨ToastKind.error, "No suite selected for testing"⟩] }
        invoked := []
        fulfilled := true } :=
  ⟨rfl, rfl⟩

/-- C8 (code evaluated at the failing input): the interceptor delivers
`detail = "Connection refused"`, but the stored per-step error message is
the constant `"Test failed"` — `handleTestStep` reads
`error.response?.data?.detail` and `error.message`, neither of which
exists on the detail/status_code object built by the interceptor. -/
theorem handleTestStep_error_message_constant :
    connectionRefusedApiError.detail = some "Connection refused" ∧
    (handleTestStep (some "s1") Step.invocation
        (TestOutcome.failure (apiErrorAsCaught connectionRefusedApiError))
        initialTestState).1.testErrors.get Step.invocation = some (some "Test failed") ∧
    ((handleTestStep (some "s1") Step.invocation
        (TestOutcome.failure (apiErrorAsCaught connectionRefusedApiError))
        initialTestState).1.currentTestResult.map CurrentTestResult.error) =
      some (some "Test failed") := by
  refine ⟨rfl, rfl, rfl⟩

/-- The JavaScript values stored in the `input` object of a step: strings,
string lists, key/value-pair lists, the nested `input_type` object,
booleans, numbers, null. -/
inductive JsValue
  | vStr (s : String)
  | vStrList (xs : List String)
  | vKVList (xs : List KeyValuePair)
  | vInputType (t : InputTypeConfig)
  | vBool (b : Bool)
  | vNum (n : Int)
  | vNull
deriving DecidableEq

/-- A JavaScript object (`Record<string, unknown>`) as an ordered list of
key/value entries; keys are unique by construction. -/
abbrev Jobj := List (String × JsValue)

/-- Property read `o[k]`. -/
def getKey : Jobj → String → Option JsValue
  | [], _ => none
  | p :: rest, k => if p.1 = k then some p.2 else getKey rest k

/-- The spread update `{...o, [k]: v}`: replace the value at `k` in
place, or append `k` at the end if absent (JavaScript object key order). -/
def setKey : Jobj → String → JsValue → Jobj
  | [], k, v => [(k, v)]
  | p :: rest, k, v => if p.1 = k then (k, v) :: rest else p :: setKey rest k v

/-- The suite record fields the configuration editor reads. -/
structure Suite where
  name : String
  description : Option String
deriving DecidableEq

/-- Structure `WorkflowStep` from `lib/types.ts`: description, script reference and
the step-specific `input` object. -/
structure WorkflowStep where
  description : String
  script : String
  input : Jobj
deriving DecidableEq

/-- The fixed four-step `steps` record of a workflow. -/
abbrev WorkflowSteps := StepMap WorkflowStep

/-- The `workflow` member of a `WorkflowConfig`. -/
structure Workflow where
  name : String
  description : String
  version : Int
  steps : WorkflowSteps
deriving DecidableEq

/-- Structure `WorkflowConfig` from `lib/types.ts` (the optional `config_files` key
is never touched by the editor). -/
structure WorkflowConfig where
  workflow : Workflow
deriving DecidableEq

/-- The default configuration template built by the `useState`
initializer of `workflow-configuration.tsx` when no initial configuration
exists.  `envBackendUrl` stands for
`process.env.NEXT_PUBLIC_BACKEND_API_URL`. -/
def defaultWorkflowConfig (suite : Option Suite) (envBackendUrl : Option String) :
    WorkflowConfig :=
  { workflow :=
      { name := jsOptStrOr (suite.map Suite.name) "New Workflow"
        description := jsOptStrOr (suite.bind Suite.description) "Evaluation workflow"
        version := 0
        steps :=
          { preprocessing :=
              { description := "Preprocess data"
                script := "preprocessing-script.py"
                input := [("input_columns", JsValue.vStrList []),
                          ("groundtruth_column", JsValue.vStr "")] }
            invocation :=
              { description := "Request invocation"
                script := "request-invocation-script.py"
                input := [("url", JsValue.vStr (jsOptStrOr envBackendUrl "http://localhost:8000/api")),
                          ("method", JsValue.vStr "POST"),
                          ("headers", JsValue.vKVList []),
                          ("input_type", JsValue.vInputType { params := none, body := none })] }
            postprocessing :=
              { description := "Postprocess data"
                script := "postprocessing-script.py"
                input := [("field", JsValue.vStr "message")] }
            evaluation :=
              { description := "Evaluation"
                script := "evaluation-script.py"
                input := [("metrics", JsValue.vStrList ["similarity"])] } } } }

/-- The `useState` initializer: use the initial configuration when one
was loaded, otherwise synthesize the default template. Never fails. -/
def initConfig (initialConfig : Option WorkflowConfig) (suite : Option Suite)
    (envBackendUrl : Option String) : WorkflowConfig :=
  match initialConfig with
  | some c => c
  | none => defaultWorkflowConfig suite envBackendUrl

/-- Structure `SuiteConfig` from `lib/types.ts`. -/
structure SuiteConfig where
  suite_id : String
  workflow_config : Option WorkflowConfig
deriving DecidableEq

/-- The configuration-load handling of `fetchSuiteData` in
`app/suites/[id]/edit/page.tsx`: a 404 from `getSuiteConfig` is treated
as absence of a configuration rather than as an error; any other failure
is rethrown. -/
def loadSuiteConfig (response : Except ApiError SuiteConfig) :
    Except ApiError (Option SuiteConfig) :=
  match response with
  | Except.ok c => Except.ok (some c)
  | Except.error e => if e.status_code = 404 then Except.ok none else Except.error e

/-- Function `updateStepInput` from `workflow-configuration.tsx`: rebuild the
named step with `input := {...currentInput, [inputField]: value}`,
spreading all other steps and workflow fields unchanged.  The source
special-cases the invocation step (its `input` has the typed
`InvocationInput` shape), but the runtime object update is the same
spread; `description || ""` and `script || ""` guard against an undefined
step. -/
def updateStepInput (stepName : Step) (inputField : String) (value : JsValue)
    (prev : WorkflowConfig) : WorkflowConfig :=
  match stepName with
  | Step.invocation =>
    let invocationStep := prev.workflow.steps.get Step.invocation
    { workflow :=
        { prev.workflow with
            steps := prev.workflow.steps.set Step.invocation
              { description := jsStrOr invocationStep.description ""
                script := jsStrOr invocationStep.script ""
                input := setKey invocationStep.input inputField value } } }
  | _ =>
    let regularStep := prev.workflow.steps.get stepName
    { workflow :=
        { prev.workflow with
            steps := prev.workflow.steps.set stepName
              { description := jsStrOr regularStep.description ""
                script := jsStrOr regularStep.script ""
                input := setKey regularStep.input inputField value } } }

/-- Function `addMetric` from `ui/metrics-selector.tsx`: append the metric unless
it is already selected (`if (!selectedMetrics.includes(metricId))`). -/
def addMetric (selectedMetrics : List String) (metricId : String) : List String :=
  if metricId ∈ selectedMetrics then selectedMetrics else selectedMetrics ++ [metricId]

/-- An HTTP request issued by the api client: method, path relative to
the base URL, and the JSON body as a list of top-level key/value entries
holding workflow configurations. -/
structure HttpRequest where
  method : String
  path : String
  body : List (String × WorkflowConfig)
deriving DecidableEq

/-- Method `ApiClient.updateSuiteConfig`: a PUT to `/v1/suites/{id}/config` with the
given data object as body. -/
def updateSuiteConfig (suiteId : String) (data : List (String × WorkflowConfig)) :
    HttpRequest :=
  { method := "PUT", path := "/v1/suites/" ++ suiteId ++ "/config", body := data }

/-- Method `ApiClient.createSuiteConfig`: a POST to `/v1/suites/{id}/config` with the
given data object as body. -/
def createSuiteConfig (suiteId : String) (data : List (String × WorkflowConfig)) :
    HttpRequest :=
  { method := "POST", path := "/v1/suites/" ++ suiteId ++ "/config", body := data }

/-- The body shape declared by `UpdateWorkflowConfigRequest` in
`lib/types.ts`: an object with the single key `configuration`. -/
def updateWorkflowConfigRequestBody (c : WorkflowConfig) : List (String × WorkflowConfig) :=
  [("configuration", c)]

/-- Function `handleSaveWorkflow` from `app/suites/[id]/edit/page.tsx`: with no
draft it bails out; over an existing configuration it calls
`updateSuiteConfig(suiteId, { workflow_config: currentConfig })`,
otherwise `createSuiteConfig` with the same body object. -/
def handleSaveWorkflow (suiteId : String) (suiteConfig : Option SuiteConfig)
    (currentConfig : Option WorkflowConfig) : Option HttpRequest :=
  match currentConfig with
  | none => none
  | some cfg =>
    match suiteConfig with
    | some sc =>
      match sc.workflow_config with
      | some _ => some (updateSuiteConfig suiteId [("workflow_config", cfg)])
      | none => some (createSuiteConfig suiteId [("workflow_config", cfg)])
    | none => some (createSuiteConfig suiteId [("workflow_config", cfg)])

/-- The guard `jsStrOr s ""` (JavaScript `x || ""`) is the identity on strings. -/
theorem jsStrOr_empty (s : String) : jsStrOr s "" = s := by
  by_cases h : s = "" <;> simp [jsStrOr, h]

/-- Reading the written key after a spread update yields the new value. -/
theorem getKey_setKey_same (o : Jobj) (k : String) (v : JsValue) :
    getKey (setKey o k v) k = some v := by
  induction o with
  | nil => simp [setKey, getKey]
  | cons p rest ih =>
    by_cases h : p.1 = k
    · simp [setKey, getKey, h]
    · simp [setKey, getKey, h, ih]

/-- Reading any other key after a spread update is unchanged. -/
theorem getKey_setKey_ne (o : Jobj) (k k2 : String) (v : JsValue) (h : k2 ≠ k) :
    getKey (setKey o k v) k2 = getKey o k2 := by
  have h2 : k ≠ k2 := Ne.symm h
  induction o with
  | nil => simp [setKey, getKey, h2]
  | cons p rest ih =>
    obtain ⟨pk, pv⟩ := p
    by_cases hp : pk = k
    · subst hp
      simp [setKey, getKey, h2]
    · simp [setKey, getKey, hp, ih]

/-- C4: for every suite (and backend-url environment), a 404 on the
configuration load is treated as absence, and initialization with no
prior configuration synthesizes the default draft: `version = 0`, all
four steps present, empty `input_columns` and empty
`groundtruth_column` for preprocessing, `method = "POST"` and empty
`headers` for invocation, and `metrics = ["similarity"]` for evaluation.
`initConfig` is a total function, so initialization never fails. -/
theorem initConfig_defaults (suite : Option Suite) (envBackendUrl : Option String)
    (d : Option String) :
    loadSuiteConfig (Except.error { detail := d, status_code := 404 }) = Except.ok none ∧
    (initConfig none suite envBackendUrl).workflow.version = 0 ∧
    getKey ((initConfig none suite envBackendUrl).workflow.steps.get
      Step.preprocessing).input "input_columns" = some (JsValue.vStrList []) ∧
    getKey ((initConfig none suite envBackendUrl).workflow.steps.get
      Step.preprocessing).input "groundtruth_column" = some (JsValue.vStr "") ∧
    getKey ((initConfig none suite envBackendUrl).workflow.steps.get
      Step.invocation).input "method" = some (JsValue.vStr "POST") ∧
    getKey ((initConfig none suite envBackendUrl).workflow.steps.get
      Step.invocation).input "headers" = some (JsValue.vKVList []) ∧
    getKey ((initConfig none suite envBackendUrl).workflow.steps.get
      Step.postprocessing).input "field" = some (JsValue.vStr "message") ∧
    getKey ((initConfig none suite envBackendUrl).workflow.steps.get
      Step.evaluation).input "metrics" = some (JsValue.vStrList ["similarity"]) := by
  refine ⟨rfl, rfl, ?_, ?_, ?_, ?_, ?_, ?_⟩ <;>
    simp [initConfig, defaultWorkflowConfig, StepMap.get, getKey]

/-- C5: adding a metric identifier that is already selected leaves the
metric list unchanged, and `addMetric` preserves duplicate-freeness, so
the list never acquires duplicates. -/
theorem addMetric_noop_when_present (l : List String) (m : String) (h : m ∈ l) :
    addMetric l m = l ∧
    ∀ (l2 : List String) (m2 : String), l2.Nodup → (addMetric l2 m2).Nodup := by
  constructor
  · unfold addMetric
    rw [if_pos h]
  · intro l2 m2 hn
    unfold addMetric
    by_cases h2 : m2 ∈ l2
    · rw [if_pos h2]
      exact hn
    · rw [if_neg h2]
      simp [List.nodup_append, hn, h2]

/-- C5 witness: a concrete instance through `addMetric_noop_when_present`. -/
theorem addMetric_noop_when_present_witness :
    addMetric ["similarity"] "similarity" = ["similarity"] ∧
    ∀ (l2 : List String) (m2 : String), l2.Nodup → (addMetric l2 m2).Nodup :=
  addMetric_noop_when_present ["similarity"] "similarity" (by decide)

/-- C7: `updateStepInput` replaces exactly the named field of the named
named step and leaves everything else unchanged: the other keys of that
`input`, the description and script of the step, the other three steps,
and the workflow name, description and version. -/
theorem updateStepInput_frame (prev : WorkflowConfig) (stepName : Step)
    (inputField : String) (value : JsValue) :
    getKey (((updateStepInput stepName inputField value prev).workflow.steps.get
      stepName).input) inputField = some value ∧
    (∀ k, k ≠ inputField →
      getKey (((updateStepInput stepName inputField value prev).workflow.steps.get
        stepName).input) k = getKey ((prev.workflow.steps.get stepName).input) k) ∧
    ((updateStepInput stepName inputField value prev).workflow.steps.get
      stepName).description = (prev.workflow.steps.get stepName).description ∧
    ((updateStepInput stepName inputField value prev).workflow.steps.get
      stepName).script = (prev.workflow.steps.get stepName).script ∧
    (∀ other, other ≠ stepName →
      (updateStepInput stepName inputField value prev).workflow.steps.get other =
        prev.workflow.steps.get other) ∧
    (updateStepInput stepName inputField value prev).workflow.name = prev.workflow.name ∧
    (updateStepInput stepName inputField value prev).workflow.description =
      prev.workflow.description ∧
    (updateStepInput stepName inputField value prev).workflow.version =
      prev.workflow.version := by
  cases stepName <;>
    exact ⟨by simp [updateStepInput, StepMap.get, StepMap.set, getKey_setKey_same],
      fun k hk => by
        simp [updateStepInput, StepMap.get, StepMap.set, getKey_setKey_ne _ _ _ _ hk],
      by simp [updateStepInput, StepMap.get, StepMap.set, jsStrOr_empty],
      by simp [updateStepInput, StepMap.get, StepMap.set, jsStrOr_empty],
      fun other ho => by
        cases other <;> simp_all [updateStepInput, StepMap.get, StepMap.set],
      rfl, rfl, rfl⟩

/-- A concrete configuration used to instantiate the frame theorem and
the save-path evaluation. -/
def sampleConfig : WorkflowConfig := defaultWorkflowConfig none none

/-- C7 witness: a concrete frame instance through `updateStepInput_frame`. -/
theorem updateStepInput_frame_witness :
    getKey (((updateStepInput Step.preprocessing "groundtruth_column"
        (JsValue.vStr "label") sampleConfig).workflow.steps.get
      Step.preprocessing).input) "input_columns" =
      getKey ((sampleConfig.workflow.steps.get Step.preprocessing).input) "input_columns" :=
  (updateStepInput_frame sampleConfig Step.preprocessing "groundtruth_column"
    (JsValue.vStr "label")).2.1 "input_columns" (by decide)

/-- C9 (code evaluated at the failing input): saving a draft over an
existing configuration issues a PUT to `/v1/suites/{id}/config` whose
body object has the single key `workflow_config` — not the key
`configuration` declared by `UpdateWorkflowConfigRequest`. -/
theorem handleSaveWorkflow_key_mismatch :
    handleSaveWorkflow "s1" (some { suite_id := "s1", workflow_config := some sampleConfig })
        (some sampleConfig) =
      some { method := "PUT", path := "/v1/suites/s1/config",
             body := [("workflow_config", sampleConfig)] } ∧
    (handleSaveWorkflow "s1" (some { suite_id := "s1", workflow_config := some sampleConfig })
        (some sampleConfig)).map (fun r => r.body.map Prod.fst) = some ["workflow_config"] ∧
    updateWorkflowConfigRequestBody sampleConfig = [("configuration", sampleConfig)] ∧
    (some ["workflow_config"] : Option (List String)) ≠ some ["configuration"] := by
  refine ⟨rfl, rfl, rfl, by decide⟩

end Evangelist
